import Mathlib

/-!
Verification of the computation engine of the rent-info-sheet repository
(`src/compute.py`), shallowly embedded in Lean 4.

Modelling conventions:
* Python values reaching `compute_unit_totals` are modelled by `PyVal`
  (`None`, `bool`, `int`, `str`, `decimal.Decimal`, `float`).
* Python `decimal.Decimal` values are modelled as exact rationals `ℚ`
  (the module performs no operation that the default 28-digit context
  rounds for monetary magnitudes; context-precision overflow for
  astronomically large operands is outside the model).
* Python `float` (binary64) values are carried by their exact rational
  value; `doubleRound` models correctly-rounded conversion `float(Decimal)`
  (round to nearest, ties to even; exponent overflow/underflow of binary64
  is outside the model).
* A Python `dict` is an association list with unique keys in practice;
  `Dict.get?` is lookup and `Dict.set` is `d[k] = v` (update in place,
  else append), exactly Python's insertion-order semantics.
-/

inductive PyVal where
  | pyNone
  | pyBool (b : Bool)
  | pyInt (n : ℤ)
  | pyStr (s : String)
  | pyDec (q : ℚ)
  | pyFloat (q : ℚ)
deriving DecidableEq

abbrev Dict := List (String × PyVal)

/-- Python `d.get(k)`: the value bound to `k`, if any. -/
def Dict.get? : Dict → String → Option PyVal
  | [], _ => Option.none
  | (k', v) :: t, k => if k' = k then some v else Dict.get? t k

/-- Python `d[k] = v`: replace the (first) binding of `k`, else append. -/
def Dict.set : Dict → String → PyVal → Dict
  | [], k, v => [(k, v)]
  | (k', v') :: t, k, v =>
      if k' = k then (k, v) :: t else (k', v') :: Dict.set t k v

theorem Dict.get?_set (d : Dict) (k k' : String) (v : PyVal) :
    (d.set k v).get? k' = if k' = k then some v else d.get? k' := by
  induction d with
  | nil =>
      by_cases h : k = k'
      · simp [Dict.set, Dict.get?, h]
      · simp [Dict.set, Dict.get?, h, Ne.symm h]
  | cons p t ih =>
      obtain ⟨k₁, v₁⟩ := p
      by_cases h1 : k₁ = k
      · subst h1
        by_cases h2 : k₁ = k'
        · simp [Dict.set, Dict.get?, h2]
        · simp [Dict.set, Dict.get?, h2, Ne.symm h2]
      · by_cases h2 : k₁ = k'
        · subst h2
          simp [Dict.set, Dict.get?, h1, Ne.symm h1]
        · simp [Dict.set, Dict.get?, h1, h2, ih]

/-! ### Numeric string parsing (`decimal.Decimal(str)` and `int(str)`) -/

/-- Python `str` whitespace (ASCII; unicode spaces are not modelled). -/
def pyWhitespace (c : Char) : Bool :=
  c = ' ' || c = '\t' || c = '\n' || c = '\x0d' || c = '\x0b' || c = '\x0c'

/-- Python `s.strip()`. -/
def pyStrip (s : String) : String :=
  String.mk (((s.data.dropWhile pyWhitespace).reverse.dropWhile pyWhitespace).reverse)

/-- Python `s.lower()` (ASCII case mapping). -/
def pyLower (s : String) : String :=
  String.mk (s.data.map Char.toLower)

/-- Value of a list of ASCII digit characters. -/
def natOfDigits (l : List Char) : ℕ :=
  l.foldl (fun a c => 10 * a + (c.toNat - 48)) 0

/-- `10^z` over ℚ for a signed exponent. -/
def pow10z (z : ℤ) : ℚ :=
  if 0 ≤ z then ((10 ^ z.toNat : ℕ) : ℚ) else 1 / ((10 ^ (-z).toNat : ℕ) : ℚ)

/-- `2^z` over ℚ for a signed exponent. -/
def pow2z (z : ℤ) : ℚ :=
  if 0 ≤ z then ((2 ^ z.toNat : ℕ) : ℚ) else 1 / ((2 ^ (-z).toNat : ℕ) : ℚ)

/-- Parse a finite decimal numeral the way `decimal.Decimal(str)` does:
optional surrounding whitespace, optional sign, digits with an optional
point (at least one digit overall), optional exponent part.  The special
values `Infinity`/`NaN` and digit-group underscores accepted by CPython
are outside the numeric domain of the spec and are not modelled. -/
def decOfString (s : String) : Option ℚ :=
  let l := (pyStrip s).data
  let sgnl : ℤ × List Char :=
    match l with
    | '+' :: t => (1, t)
    | '-' :: t => (-1, t)
    | t => (1, t)
  let ip := sgnl.2.takeWhile Char.isDigit
  let rest1 := sgnl.2.dropWhile Char.isDigit
  let fprest : List Char × List Char :=
    match rest1 with
    | '.' :: t => (t.takeWhile Char.isDigit, t.dropWhile Char.isDigit)
    | t => ([], t)
  let fp := fprest.1
  if ip.isEmpty && fp.isEmpty then Option.none
  else
    let mant : ℚ := (sgnl.1 : ℚ) * (natOfDigits (ip ++ fp) : ℚ)
    match fprest.2 with
    | [] => some (mant * pow10z (-(fp.length : ℤ)))
    | c :: t =>
        if c = 'e' || c = 'E' then
          let esgnl : ℤ × List Char :=
            match t with
            | '+' :: u => (1, u)
            | '-' :: u => (-1, u)
            | u => (1, u)
          let ed := esgnl.2.takeWhile Char.isDigit
          let erest := esgnl.2.dropWhile Char.isDigit
          if ed.isEmpty || !erest.isEmpty then Option.none
          else some (mant * pow10z (esgnl.1 * (natOfDigits ed : ℤ) - (fp.length : ℤ)))
        else Option.none

/-- Parse an integer numeral the way `int(str)` does: optional surrounding
whitespace, optional sign, at least one digit (underscores not modelled). -/
def intOfString (s : String) : Option ℤ :=
  let l := (pyStrip s).data
  let sgnl : ℤ × List Char :=
    match l with
    | '+' :: t => (1, t)
    | '-' :: t => (-1, t)
    | t => (1, t)
  if sgnl.2.isEmpty || !sgnl.2.all Char.isDigit then Option.none
  else some (sgnl.1 * (natOfDigits sgnl.2 : ℤ))

/-! ### Rounding and binary64 conversion -/

/-- `ROUND_HALF_UP` of `decimal`: round to the nearest integer, ties away
from zero. -/
def roundHalfUpAway (q : ℚ) : ℤ :=
  if 0 ≤ q then ⌊q + 1 / 2⌋ else -⌊-q + 1 / 2⌋

/-- `value.quantize(Decimal("0.01"), rounding=ROUND_HALF_UP)`. -/
def quantize2 (q : ℚ) : ℚ := (roundHalfUpAway (q * 100) : ℚ) / 100

/-- Truncation toward zero, as Python `int(Decimal)`. -/
def truncQ (q : ℚ) : ℤ := q.num.tdiv (q.den : ℤ)

/-- Fuel-driven binary logarithm; with fuel `n` it computes `⌊log2 n⌋`. -/
def log2f : ℕ → ℕ → ℕ
  | 0, _ => 0
  | f + 1, n => if n ≤ 1 then 0 else log2f f (n / 2) + 1

/-- `⌊log2 n⌋` for `n ≥ 1` (and `0` at `0`), kernel-reducible. -/
def natLog2 (n : ℕ) : ℕ := log2f n n

/-- The exponent `e` with `2^e ≤ q < 2^(e+1)`, for `q > 0`. -/
def ilog2 (q : ℚ) : ℤ :=
  let e0 : ℤ := (natLog2 q.num.natAbs : ℤ) - (natLog2 q.den : ℤ)
  if q < pow2z e0 then e0 - 1 else e0

/-- Correctly-rounded conversion of an exact rational to IEEE binary64
(round to nearest, ties to even), as performed by Python `float(Decimal)`.
Binary64 exponent overflow/underflow is not modelled. -/
def doubleRound (q : ℚ) : ℚ :=
  if q = 0 then 0
  else
    let a := |q|
    let e := ilog2 a
    let scale := pow2z (52 - e)
    let x := a * scale
    let n := ⌊x⌋
    let r := x - (n : ℚ)
    let m : ℤ :=
      if r < 1 / 2 then n
      else if 1 / 2 < r then n + 1
      else if n % 2 = 0 then n else n + 1
    (if q < 0 then -1 else 1) * (m : ℚ) / scale

/-! ### Money formatting (`_money` in src/compute.py) -/

/-- Insert `,` every three digits, counting from the right. -/
def group3 : List Char → List Char
  | [] => []
  | [a] => [a]
  | [a, b] => [a, b]
  | [a, b, c] => [a, b, c]
  | a :: b :: c :: rest => a :: b :: c :: ',' :: group3 rest

def commaGroup (s : String) : String :=
  String.mk ((group3 s.data.reverse).reverse)

/-- Python `f"{n:,}"` for an integer. -/
def intCommaStr (n : ℤ) : String :=
  (if n < 0 then "-" else "") ++ commaGroup (Nat.repr n.natAbs)

def pad2 (m : ℕ) : String :=
  if m < 10 then "0" ++ Nat.repr m else Nat.repr m

def intRepr (n : ℤ) : String :=
  (if n < 0 then "-" else "") ++ Nat.repr n.natAbs

/-- `_money`: quantize to cents with ROUND_HALF_UP; if the result is a
whole number render `f"$\x7bint(rounded):,\x7d"`, else `f"$\x7brounded:,.2f\x7d"`.
We carry the quantized value as its integer number of cents `k`. -/
def _money (value : ℚ) : String :=
  let k : ℤ := roundHalfUpAway (value * 100)
  if k % 100 = 0 then "$" ++ intCommaStr (k / 100)
  else
    "$" ++ (if k < 0 then "-" else "") ++
      commaGroup (Nat.repr (k.natAbs / 100)) ++ "." ++ pad2 (k.natAbs % 100)

/-! ### The computation engine (`compute_unit_totals` in src/compute.py) -/

/-- `_d(value)`: `Decimal` coercion via `Decimal(str(value))`.
`str(None) = "None"` and `str(True)/str(False)` are not numerals, so these
raise `InvalidOperation`.  For a float, `str` produces the shortest decimal
numeral that round-trips to it; the model identifies that numeral's value
with the float's exact binary value (the sub-half-ulp difference affects
no statement proved below, and every concrete input used below is a
string, int or bool). -/
def _d : PyVal → Option ℚ
  | .pyDec q => some q
  | .pyInt n => some (n : ℚ)
  | .pyFloat q => some q
  | .pyStr s => decOfString s
  | .pyBool _ => Option.none
  | .pyNone => Option.none

/-- Python `int(value)` as applied to `wifi_device_limit`: ints and bools
pass through, `Decimal`/float truncate toward zero, strings must be integer
numerals, `None` raises `TypeError`. -/
def pyIntCast : PyVal → Option ℤ
  | .pyBool b => some (if b then 1 else 0)
  | .pyInt n => some n
  | .pyDec q => some (truncQ q)
  | .pyFloat q => some (truncQ q)
  | .pyStr s => intOfString s
  | .pyNone => Option.none

/-- Python truthiness of a value, used by `if utils_included` for
non-string values (strings are intercepted by the `isinstance` branch). -/
def truthy : PyVal → Bool
  | .pyNone => false
  | .pyBool b => b
  | .pyInt n => n != 0
  | .pyDec q => q != 0
  | .pyFloat q => q != 0
  | .pyStr s => s != ""

/-- The merge of lines 41–46: `data = \x7b**unit\x7d`, then every override
entry whose value is not `None` and not `""` wins. -/
def pyMerge (unit : Dict) (overrides : Option Dict) : Dict :=
  match overrides with
  | Option.none => unit
  | Option.some ov =>
      ov.foldl
        (fun d kv =>
          if kv.2 = PyVal.pyNone ∨ kv.2 = PyVal.pyStr "" then d
          else d.set kv.1 kv.2)
        unit

/-- Lines 65–67: boolean coercion of `utilities_included`. -/
def utilsIncludedFlag (data : Dict) : Bool :=
  match (data.get? "utilities_included").getD (.pyBool false) with
  | .pyStr s =>
      pyLower (pyStrip s) = "yes" || pyLower (pyStrip s) = "true" || pyLower (pyStrip s) = "1"
  | v => truthy v

/-- Line 68: the utilities label. -/
def utilitiesLabel (data : Dict) : PyVal :=
  if utilsIncludedFlag data then .pyStr "Included in Rent"
  else (data.get? "utilities_text").getD (.pyStr "Not Included")

/-- Lines 56–62 and 74–109: derived amounts and the context dictionary,
given the successfully coerced numeric inputs.  The `ctx.update` entries
are applied in source order. -/
def buildCtx (data : Dict) (base_rent security_dep app_fee cleaning_fee
    holding_pct parking wifi_cost : ℚ) (wifi_limit : ℤ) (pet : ℚ) : Dict :=
  let first_month := base_rent
  let last_month := base_rent
  let holding_fee := quantize2 (base_rent * holding_pct / 100)
  let total_move_in := first_month + last_month + security_dep + app_fee + cleaning_fee
  let remaining := total_move_in - holding_fee
  let total_monthly := base_rent
  ((((((((((((((((((((((data.set
    "base_rent_fmt" (.pyStr (_money base_rent))).set
    "first_month_rent_fmt" (.pyStr (_money first_month))).set
    "last_month_rent_fmt" (.pyStr (_money last_month))).set
    "security_deposit_fmt" (.pyStr (_money security_dep))).set
    "application_fee_fmt" (.pyStr (_money app_fee))).set
    "cleaning_fee_fmt" (.pyStr (_money cleaning_fee))).set
    "holding_fee_fmt" (.pyStr (_money holding_fee))).set
    "total_move_in_fmt" (.pyStr (_money total_move_in))).set
    "remaining_fmt" (.pyStr (_money remaining))).set
    "total_monthly_fmt" (.pyStr (_money total_monthly))).set
    "holding_pct_fmt" (.pyStr (intRepr (truncQ holding_pct) ++ "%"))).set
    "first_month_rent" (.pyFloat (doubleRound first_month))).set
    "last_month_rent" (.pyFloat (doubleRound last_month))).set
    "holding_fee" (.pyFloat (doubleRound holding_fee))).set
    "total_move_in" (.pyFloat (doubleRound total_move_in))).set
    "remaining_after_hold" (.pyFloat (doubleRound remaining))).set
    "total_monthly" (.pyFloat (doubleRound total_monthly))).set
    "utilities_label" (utilitiesLabel data)).set
    "parking_monthly_cost_fmt" (.pyStr (_money parking))).set
    "wifi_monthly_cost_fmt" (.pyStr (_money wifi_cost))).set
    "wifi_device_limit" (.pyInt wifi_limit)).set
    "pet_rent_monthly_fmt" (.pyStr (_money pet)))

/-- `compute_unit_totals(unit, overrides)`.  A `Option.none` result models a
raised exception (`InvalidOperation` from `Decimal`, `ValueError`/`TypeError`
from `int`); the fallible coercions are exactly those of lines 49–53 and
the `_d`/`int` calls inside the context literal of lines 101–108. -/
def compute_unit_totals (unit : Dict) (overrides : Option Dict) : Option Dict := do
  let data := pyMerge unit overrides
  let base_rent ← _d ((data.get? "base_rent").getD (.pyInt 0))
  let security_dep ← _d ((data.get? "security_deposit").getD (.pyInt 0))
  let app_fee ← _d ((data.get? "application_fee").getD (.pyInt 0))
  let cleaning_fee ← _d ((data.get? "cleaning_fee").getD (.pyInt 0))
  let holding_pct ← _d ((data.get? "holding_fee_percent").getD (.pyInt 25))
  let parking ← _d ((data.get? "parking_monthly_cost").getD (.pyInt 0))
  let wifi_cost ← _d ((data.get? "wifi_monthly_cost").getD (.pyInt 0))
  let wifi_limit ← pyIntCast ((data.get? "wifi_device_limit").getD (.pyInt 0))
  let pet ← _d ((data.get? "pet_rent_monthly").getD (.pyInt 0))
  some (buildCtx data base_rent security_dep app_fee cleaning_fee holding_pct
    parking wifi_cost wifi_limit pet)

/-- Lookup of one key in the computed context, when the computation
succeeds. -/
def ctxGet (unit : Dict) (overrides : Option Dict) (k : String) : Option PyVal :=
  (compute_unit_totals unit overrides).bind (fun c => Dict.get? c k)

/-! ### Helper lemmas -/

theorem Dict.get?_eq_none_iff (d : Dict) (k : String) :
    d.get? k = Option.none ↔ ∀ p ∈ d, p.1 ≠ k := by
  induction d with
  | nil => simp [Dict.get?]
  | cons p t ih =>
      obtain ⟨k₁, v₁⟩ := p
      by_cases h : k₁ = k
      · subst h; simp [Dict.get?]
      · simp [Dict.get?, h, ih]

/-- The override fold leaves a key alone when no override entry names it. -/
theorem mergeFold_get?_of_not_mem (ov : Dict) (d : Dict) (k : String)
    (h : ∀ p ∈ ov, p.1 ≠ k) :
    (ov.foldl
        (fun d kv =>
          if kv.2 = PyVal.pyNone ∨ kv.2 = PyVal.pyStr "" then d
          else d.set kv.1 kv.2) d).get? k = d.get? k := by
  induction ov generalizing d with
  | nil => rfl
  | cons p t ih =>
      have hp : p.1 ≠ k := h p (List.mem_cons_self p t)
      have ht : ∀ q ∈ t, q.1 ≠ k := fun q hq => h q (List.mem_cons_of_mem p hq)
      simp only [List.foldl_cons]
      rw [ih _ ht]
      by_cases hskip : p.2 = PyVal.pyNone ∨ p.2 = PyVal.pyStr ""
      · rw [if_pos hskip]
      · rw [if_neg hskip, Dict.get?_set, if_neg (Ne.symm hp)]

/-- The override fold at a key bound in the override (keys unique, as in a
Python dict): a `None`/`""` value is skipped, any other value wins. -/
theorem mergeFold_get?_of_mem (ov : Dict) (d : Dict) (k : String) (v : PyVal)
    (hnd : (ov.map Prod.fst).Nodup) (hget : ov.get? k = some v) :
    (ov.foldl
        (fun d kv =>
          if kv.2 = PyVal.pyNone ∨ kv.2 = PyVal.pyStr "" then d
          else d.set kv.1 kv.2) d).get? k =
      if v = PyVal.pyNone ∨ v = PyVal.pyStr "" then d.get? k else some v := by
  induction ov generalizing d with
  | nil => simp [Dict.get?] at hget
  | cons p t ih =>
      obtain ⟨k₁, v₁⟩ := p
      simp only [List.map_cons, List.nodup_cons] at hnd
      by_cases h : k₁ = k
      · subst h
        have hv : v₁ = v := by simpa [Dict.get?] using hget
        subst hv
        have ht : ∀ q ∈ t, q.1 ≠ k₁ := by
          intro q hq heq
          exact hnd.1 (heq ▸ List.mem_map_of_mem Prod.fst hq)
        simp only [List.foldl_cons]
        rw [mergeFold_get?_of_not_mem t _ _ ht]
        by_cases hskip : v₁ = PyVal.pyNone ∨ v₁ = PyVal.pyStr ""
        · rw [if_pos hskip, if_pos hskip]
        · rw [if_neg hskip, if_neg hskip, Dict.get?_set, if_pos rfl]
      · simp only [Dict.get?, if_neg h] at hget
        simp only [List.foldl_cons]
        rw [ih _ hnd.2 hget]
        have hstep :
            (if v₁ = PyVal.pyNone ∨ v₁ = PyVal.pyStr "" then d
              else d.set k₁ v₁).get? k = d.get? k := by
          by_cases hskip : v₁ = PyVal.pyNone ∨ v₁ = PyVal.pyStr ""
          · rw [if_pos hskip]
          · rw [if_neg hskip, Dict.get?_set, if_neg (fun hh : k = k₁ => h hh.symm)]
        rw [hstep]

theorem roundHalfUpAway_intCast (k : ℤ) : roundHalfUpAway (k : ℚ) = k := by
  have hfl : (⌊(1 : ℚ) / 2⌋ : ℤ) = 0 := by
    rw [Int.floor_eq_iff]
    norm_num
  unfold roundHalfUpAway
  by_cases h : (0 : ℚ) ≤ (k : ℚ)
  · rw [if_pos h, Int.floor_int_add, hfl, add_zero]
  · rw [if_neg h]
    have : -(k : ℚ) + 1 / 2 = ((-k : ℤ) : ℚ) + 1 / 2 := by push_cast; ring
    rw [this, Int.floor_int_add, hfl, add_zero, neg_neg]

/-- After a successful coercion pass the engine returns exactly the
assembled context. -/
theorem compute_unit_totals_eq (unit : Dict) (ov : Option Dict)
    (br sd af cf hp pk wc : ℚ) (wl : ℤ) (pr : ℚ)
    (hbr : _d (((pyMerge unit ov).get? "base_rent").getD (.pyInt 0)) = some br)
    (hsd : _d (((pyMerge unit ov).get? "security_deposit").getD (.pyInt 0)) = some sd)
    (haf : _d (((pyMerge unit ov).get? "application_fee").getD (.pyInt 0)) = some af)
    (hcf : _d (((pyMerge unit ov).get? "cleaning_fee").getD (.pyInt 0)) = some cf)
    (hhp : _d (((pyMerge unit ov).get? "holding_fee_percent").getD (.pyInt 25)) = some hp)
    (hpk : _d (((pyMerge unit ov).get? "parking_monthly_cost").getD (.pyInt 0)) = some pk)
    (hwc : _d (((pyMerge unit ov).get? "wifi_monthly_cost").getD (.pyInt 0)) = some wc)
    (hwl : pyIntCast (((pyMerge unit ov).get? "wifi_device_limit").getD (.pyInt 0)) = some wl)
    (hpr : _d (((pyMerge unit ov).get? "pet_rent_monthly").getD (.pyInt 0)) = some pr) :
    compute_unit_totals unit ov =
      some (buildCtx (pyMerge unit ov) br sd af cf hp pk wc wl pr) := by
  simp [compute_unit_totals, hbr, hsd, haf, hcf, hhp, hpk, hwc, hwl, hpr]

/-- The engine fails exactly when one of the nine value coercions fails. -/
theorem compute_unit_totals_eq_none_iff (unit : Dict) (ov : Option Dict) :
    compute_unit_totals unit ov = Option.none ↔
      (_d (((pyMerge unit ov).get? "base_rent").getD (.pyInt 0)) = Option.none ∨
       _d (((pyMerge unit ov).get? "security_deposit").getD (.pyInt 0)) = Option.none ∨
       _d (((pyMerge unit ov).get? "application_fee").getD (.pyInt 0)) = Option.none ∨
       _d (((pyMerge unit ov).get? "cleaning_fee").getD (.pyInt 0)) = Option.none ∨
       _d (((pyMerge unit ov).get? "holding_fee_percent").getD (.pyInt 25)) = Option.none ∨
       _d (((pyMerge unit ov).get? "parking_monthly_cost").getD (.pyInt 0)) = Option.none ∨
       _d (((pyMerge unit ov).get? "wifi_monthly_cost").getD (.pyInt 0)) = Option.none ∨
       pyIntCast (((pyMerge unit ov).get? "wifi_device_limit").getD (.pyInt 0)) = Option.none ∨
       _d (((pyMerge unit ov).get? "pet_rent_monthly").getD (.pyInt 0)) = Option.none) := by
  cases h1 : _d (((pyMerge unit ov).get? "base_rent").getD (.pyInt 0)) with
  | none => simp [compute_unit_totals, h1]
  | some a1 =>
  cases h2 : _d (((pyMerge unit ov).get? "security_deposit").getD (.pyInt 0)) with
  | none => simp [compute_unit_totals, h1, h2]
  | some a2 =>
  cases h3 : _d (((pyMerge unit ov).get? "application_fee").getD (.pyInt 0)) with
  | none => simp [compute_unit_totals, h1, h2, h3]
  | some a3 =>
  cases h4 : _d (((pyMerge unit ov).get? "cleaning_fee").getD (.pyInt 0)) with
  | none => simp [compute_unit_totals, h1, h2, h3, h4]
  | some a4 =>
  cases h5 : _d (((pyMerge unit ov).get? "holding_fee_percent").getD (.pyInt 25)) with
  | none => simp [compute_unit_totals, h1, h2, h3, h4, h5]
  | some a5 =>
  cases h6 : _d (((pyMerge unit ov).get? "parking_monthly_cost").getD (.pyInt 0)) with
  | none => simp [compute_unit_totals, h1, h2, h3, h4, h5, h6]
  | some a6 =>
  cases h7 : _d (((pyMerge unit ov).get? "wifi_monthly_cost").getD (.pyInt 0)) with
  | none => simp [compute_unit_totals, h1, h2, h3, h4, h5, h6, h7]
  | some a7 =>
  cases h8 : pyIntCast (((pyMerge unit ov).get? "wifi_device_limit").getD (.pyInt 0)) with
  | none => simp [compute_unit_totals, h1, h2, h3, h4, h5, h6, h7, h8]
  | some a8 =>
  cases h9 : _d (((pyMerge unit ov).get? "pet_rent_monthly").getD (.pyInt 0)) with
  | none => simp [compute_unit_totals, h1, h2, h3, h4, h5, h6, h7, h8, h9]
  | some a9 => simp [compute_unit_totals, h1, h2, h3, h4, h5, h6, h7, h8, h9]

theorem dollar_dash (s : String) : "$" ++ ("-" ++ s) = "$-" ++ s := by
  have h : ("$" : String) ++ "-" = "$-" := by decide
  rw [← String.append_assoc, h]

/-! ### Claims -/

unseal Rat.add Rat.mul Rat.sub Rat.inv Rat.ofScientific

/-- C1: the merge inside `compute_unit_totals` replaces the unit value with
the override value exactly for those override keys whose value is neither
`None` nor the empty string (numeric zero IS a valid override and is
applied), retains every other unit field verbatim, passes unknown keys in
either input through without validation, and an empty or `None` override
produces a merged record equal to the unit record. -/
theorem C1_merge_semantics (unit ov : Dict)
    (hnd : (ov.map Prod.fst).Nodup) :
    (∀ k v, ov.get? k = some v → v ≠ PyVal.pyNone → v ≠ PyVal.pyStr "" →
        (pyMerge unit (some ov)).get? k = some v)
  ∧ (∀ k, ov.get? k = Option.none →
        (pyMerge unit (some ov)).get? k = unit.get? k)
  ∧ (∀ k v, ov.get? k = some v → (v = PyVal.pyNone ∨ v = PyVal.pyStr "") →
        (pyMerge unit (some ov)).get? k = unit.get? k)
  ∧ pyMerge unit Option.none = unit
  ∧ pyMerge unit (some []) = unit := by
  refine ⟨?_, ?_, ?_, rfl, rfl⟩
  · intro k v hget hv1 hv2
    have h := mergeFold_get?_of_mem ov unit k v hnd hget
    rw [if_neg (by tauto)] at h
    exact h
  · intro k hget
    exact mergeFold_get?_of_not_mem ov unit k ((Dict.get?_eq_none_iff ov k).1 hget)
  · intro k v hget hskip
    have h := mergeFold_get?_of_mem ov unit k v hnd hget
    rwa [if_pos hskip] at h

/-- Witness for C1 at concrete dictionaries: an override of numeric `0`
is applied, a `None` override leaves the unit value, an unknown override
key passes through, and untouched unit fields survive verbatim. -/
theorem C1_merge_semantics_witness :
    ((([("base_rent", PyVal.pyInt 0), ("cleaning_fee", PyVal.pyNone),
        ("mystery_key", PyVal.pyStr "x")] : Dict).map Prod.fst).Nodup)
  ∧ (pyMerge [("base_rent", PyVal.pyInt 1500), ("cleaning_fee", PyVal.pyInt 100)]
      (some [("base_rent", PyVal.pyInt 0), ("cleaning_fee", PyVal.pyNone),
        ("mystery_key", PyVal.pyStr "x")])).get? "base_rent" = some (PyVal.pyInt 0)
  ∧ (pyMerge [("base_rent", PyVal.pyInt 1500), ("cleaning_fee", PyVal.pyInt 100)]
      (some [("base_rent", PyVal.pyInt 0), ("cleaning_fee", PyVal.pyNone),
        ("mystery_key", PyVal.pyStr "x")])).get? "cleaning_fee" = some (PyVal.pyInt 100)
  ∧ (pyMerge [("base_rent", PyVal.pyInt 1500), ("cleaning_fee", PyVal.pyInt 100)]
      (some [("base_rent", PyVal.pyInt 0), ("cleaning_fee", PyVal.pyNone),
        ("mystery_key", PyVal.pyStr "x")])).get? "mystery_key" = some (PyVal.pyStr "x") := by
  refine ⟨by decide, ?_, ?_, ?_⟩
  · exact (C1_merge_semantics
      [("base_rent", PyVal.pyInt 1500), ("cleaning_fee", PyVal.pyInt 100)]
      [("base_rent", PyVal.pyInt 0), ("cleaning_fee", PyVal.pyNone),
        ("mystery_key", PyVal.pyStr "x")] (by decide)).1
      "base_rent" (PyVal.pyInt 0) (by decide) (by decide) (by decide)
  · exact ((C1_merge_semantics
      [("base_rent", PyVal.pyInt 1500), ("cleaning_fee", PyVal.pyInt 100)]
      [("base_rent", PyVal.pyInt 0), ("cleaning_fee", PyVal.pyNone),
        ("mystery_key", PyVal.pyStr "x")] (by decide)).2.2.1
      "cleaning_fee" PyVal.pyNone (by decide) (Or.inl rfl)).trans (by decide)
  · exact (C1_merge_semantics
      [("base_rent", PyVal.pyInt 1500), ("cleaning_fee", PyVal.pyInt 100)]
      [("base_rent", PyVal.pyInt 0), ("cleaning_fee", PyVal.pyNone),
        ("mystery_key", PyVal.pyStr "x")] (by decide)).1
      "mystery_key" (PyVal.pyStr "x") (by decide) (by decide) (by decide)

/-- C4: the money formatter first rounds to 2 decimal places half-up
(formatting the pre-rounded value changes nothing), prefixes `$`, inserts
comma thousands separators, renders whole numbers without cents
(`1234.00 ↦ "$1,234"`) and fractional amounts with exactly two decimals
(`1234.50 ↦ "$1,234.50"`). -/
theorem C4_money_format :
    (∀ q : ℚ, _money (quantize2 q) = _money q)
  ∧ _money (1234 : ℚ) = "$1,234"
  ∧ _money ((123450 : ℚ) / 100) = "$1,234.50"
  ∧ _money ((123456789 : ℚ) / 100) = "$1,234,567.89"
  ∧ _money ((1 : ℚ) / 200) = "$0.01" := by
  refine ⟨?_, by decide, by decide, by decide, by decide⟩
  intro q
  unfold _money
  have h : quantize2 q * 100 = ((roundHalfUpAway (q * 100) : ℤ) : ℚ) := by
    unfold quantize2
    field_simp
  rw [h, roundHalfUpAway_intCast]

/-- Witness for C4: the rounding-first property applied at `1/200`
(which half-rounds up to one cent). -/
theorem C4_money_format_witness :
    _money (quantize2 ((1 : ℚ) / 200)) = _money ((1 : ℚ) / 200)
  ∧ _money (quantize2 ((1 : ℚ) / 200)) = "$0.01" := by
  refine ⟨C4_money_format.1 ((1 : ℚ) / 200), by decide⟩

/-- C5: `compute_unit_totals` fails exactly when a merged value destined
for coercion cannot be parsed as a number (the failure propagates, never a
silent fallback), while absence of a field never errors: it resolves to
the documented default (0, or 25 for `holding_fee_percent`) before
coercion, so an empty unit record computes successfully. -/
theorem C5_coercion_failure_and_defaults :
    (∀ (unit : Dict) (ov : Option Dict),
      compute_unit_totals unit ov = Option.none ↔
        (_d (((pyMerge unit ov).get? "base_rent").getD (.pyInt 0)) = Option.none ∨
         _d (((pyMerge unit ov).get? "security_deposit").getD (.pyInt 0)) = Option.none ∨
         _d (((pyMerge unit ov).get? "application_fee").getD (.pyInt 0)) = Option.none ∨
         _d (((pyMerge unit ov).get? "cleaning_fee").getD (.pyInt 0)) = Option.none ∨
         _d (((pyMerge unit ov).get? "holding_fee_percent").getD (.pyInt 25)) = Option.none ∨
         _d (((pyMerge unit ov).get? "parking_monthly_cost").getD (.pyInt 0)) = Option.none ∨
         _d (((pyMerge unit ov).get? "wifi_monthly_cost").getD (.pyInt 0)) = Option.none ∨
         pyIntCast (((pyMerge unit ov).get? "wifi_device_limit").getD (.pyInt 0)) = Option.none ∨
         _d (((pyMerge unit ov).get? "pet_rent_monthly").getD (.pyInt 0)) = Option.none))
  ∧ _d (PyVal.pyInt 0) = some 0
  ∧ _d (PyVal.pyInt 25) = some 25
  ∧ (compute_unit_totals [] Option.none).isSome = true
  ∧ ctxGet [] Option.none "holding_pct_fmt" = some (PyVal.pyStr "25%")
  ∧ ctxGet [] Option.none "base_rent_fmt" = some (PyVal.pyStr "$0")
  ∧ ctxGet [] Option.none "total_move_in_fmt" = some (PyVal.pyStr "$0")
  ∧ compute_unit_totals [("base_rent", PyVal.pyStr "abc")] Option.none = Option.none := by
  exact ⟨compute_unit_totals_eq_none_iff, by decide, by decide, by decide,
    by decide, by decide, by decide, by decide⟩

/-- Witness for C5: the failure law applied at a unit whose `base_rent`
is the non-numeric string `"abc"`. -/
theorem C5_coercion_failure_and_defaults_witness :
    compute_unit_totals [("base_rent", PyVal.pyStr "abc")] Option.none = Option.none
  ∧ _d (((pyMerge [("base_rent", PyVal.pyStr "abc")] Option.none).get?
      "base_rent").getD (.pyInt 0)) = Option.none := by
  refine ⟨(C5_coercion_failure_and_defaults.1
    [("base_rent", PyVal.pyStr "abc")] Option.none).2 (Or.inl (by decide)), by decide⟩

/-- C10: the money formatter is total on negative amounts and places the
minus sign after the dollar sign: any amount whose rounded cents are
negative renders as `"$-"` followed by the digits, `-5 ↦ "$-5"` and
`-1234.5 ↦ "$-1,234.50"`. -/
theorem C10_money_negative :
    (∀ q : ℚ, roundHalfUpAway (q * 100) < 0 → ∃ t, _money q = "$-" ++ t)
  ∧ _money (-5 : ℚ) = "$-5"
  ∧ _money ((-123450 : ℚ) / 100) = "$-1,234.50" := by
  refine ⟨?_, by decide, by decide⟩
  intro q hneg
  unfold _money
  by_cases hdiv : roundHalfUpAway (q * 100) % 100 = 0
  · rw [if_pos hdiv]
    have hq : roundHalfUpAway (q * 100) / 100 < 0 := by omega
    refine ⟨commaGroup (Nat.repr (roundHalfUpAway (q * 100) / 100).natAbs), ?_⟩
    rw [intCommaStr, if_pos hq, dollar_dash]
  · rw [if_neg hdiv, if_pos hneg]
    refine ⟨commaGroup (Nat.repr ((roundHalfUpAway (q * 100)).natAbs / 100)) ++ "." ++
      pad2 ((roundHalfUpAway (q * 100)).natAbs % 100), ?_⟩
    simp only [String.append_assoc]
    rw [dollar_dash]

/-- Witness for C10: the sign-placement law applied at `-5`. -/
theorem C10_money_negative_witness :
    roundHalfUpAway ((-5 : ℚ) * 100) < 0
  ∧ (∃ t, _money (-5 : ℚ) = "$-" ++ t) := by
  exact ⟨by decide, C10_money_negative.1 (-5 : ℚ) (by decide)⟩

/-- C2: for every merged record whose fields coerce, the derived
`holding_fee` is `base_rent × holding_fee_percent / 100` rounded to two
decimal places with half rounding up (`quantize2`, i.e. `ROUND_HALF_UP`),
both as the raw context entry and in its formatted form. -/
theorem C2_holding_fee_formula (unit : Dict) (ov : Option Dict)
    (br sd af cf hp pk wc : ℚ) (wl : ℤ) (pr : ℚ)
    (hbr : _d (((pyMerge unit ov).get? "base_rent").getD (.pyInt 0)) = some br)
    (hsd : _d (((pyMerge unit ov).get? "security_deposit").getD (.pyInt 0)) = some sd)
    (haf : _d (((pyMerge unit ov).get? "application_fee").getD (.pyInt 0)) = some af)
    (hcf : _d (((pyMerge unit ov).get? "cleaning_fee").getD (.pyInt 0)) = some cf)
    (hhp : _d (((pyMerge unit ov).get? "holding_fee_percent").getD (.pyInt 25)) = some hp)
    (hpk : _d (((pyMerge unit ov).get? "parking_monthly_cost").getD (.pyInt 0)) = some pk)
    (hwc : _d (((pyMerge unit ov).get? "wifi_monthly_cost").getD (.pyInt 0)) = some wc)
    (hwl : pyIntCast (((pyMerge unit ov).get? "wifi_device_limit").getD (.pyInt 0)) = some wl)
    (hpr : _d (((pyMerge unit ov).get? "pet_rent_monthly").getD (.pyInt 0)) = some pr) :
    ∃ ctx, compute_unit_totals unit ov = some ctx
      ∧ ctx.get? "holding_fee" =
          some (PyVal.pyFloat (doubleRound (quantize2 (br * hp / 100))))
      ∧ ctx.get? "holding_fee_fmt" =
          some (PyVal.pyStr (_money (quantize2 (br * hp / 100)))) := by
  refine ⟨_, compute_unit_totals_eq unit ov br sd af cf hp pk wc wl pr
    hbr hsd haf hcf hhp hpk hwc hwl hpr, ?_, ?_⟩
  · simp [buildCtx, Dict.get?_set]
  · simp [buildCtx, Dict.get?_set]

/-- Witness for C2 at the spec's concrete instance: `base_rent = 999.99`
with `holding_fee_percent = 33` yields exactly `330.00`, formatted
`"$330"`. -/
theorem C2_holding_fee_formula_witness :
    _d (((pyMerge [("base_rent", PyVal.pyStr "999.99"),
        ("holding_fee_percent", PyVal.pyInt 33)] Option.none).get?
        "base_rent").getD (.pyInt 0)) = some ((99999 : ℚ) / 100)
  ∧ _d (((pyMerge [("base_rent", PyVal.pyStr "999.99"),
        ("holding_fee_percent", PyVal.pyInt 33)] Option.none).get?
        "holding_fee_percent").getD (.pyInt 25)) = some (33 : ℚ)
  ∧ (∃ ctx, compute_unit_totals [("base_rent", PyVal.pyStr "999.99"),
        ("holding_fee_percent", PyVal.pyInt 33)] Option.none = some ctx
      ∧ ctx.get? "holding_fee" =
          some (PyVal.pyFloat (doubleRound (quantize2 ((99999 : ℚ) / 100 * 33 / 100))))
      ∧ ctx.get? "holding_fee_fmt" =
          some (PyVal.pyStr (_money (quantize2 ((99999 : ℚ) / 100 * 33 / 100)))))
  ∧ quantize2 ((99999 : ℚ) / 100 * 33 / 100) = 330
  ∧ _money (quantize2 ((99999 : ℚ) / 100 * 33 / 100)) = "$330" := by
  refine ⟨by decide, by decide, ?_, by decide, by decide⟩
  exact C2_holding_fee_formula
    [("base_rent", PyVal.pyStr "999.99"), ("holding_fee_percent", PyVal.pyInt 33)]
    Option.none ((99999 : ℚ) / 100) 0 0 0 33 0 0 0 0
    (by decide) (by decide) (by decide) (by decide) (by decide)
    (by decide) (by decide) (by decide) (by decide)

/-- C7 counterexample: on a unit whose `wifi_device_limit` is the string
`"3.5"`, every decimal coercion of the merge succeeds (all such fields are
absent and default to 0 or 25), yet `compute_unit_totals` raises — the
context-assembly step's `int(...)` coercion throws even though §4.2
coercion passed. -/
theorem C7_assembly_cex :
    compute_unit_totals [("wifi_device_limit", PyVal.pyStr "3.5")] Option.none
      = Option.none
  ∧ _d (((pyMerge [("wifi_device_limit", PyVal.pyStr "3.5")] Option.none).get?
      "base_rent").getD (.pyInt 0)) = some 0
  ∧ _d (((pyMerge [("wifi_device_limit", PyVal.pyStr "3.5")] Option.none).get?
      "security_deposit").getD (.pyInt 0)) = some 0
  ∧ _d (((pyMerge [("wifi_device_limit", PyVal.pyStr "3.5")] Option.none).get?
      "application_fee").getD (.pyInt 0)) = some 0
  ∧ _d (((pyMerge [("wifi_device_limit", PyVal.pyStr "3.5")] Option.none).get?
      "cleaning_fee").getD (.pyInt 0)) = some 0
  ∧ _d (((pyMerge [("wifi_device_limit", PyVal.pyStr "3.5")] Option.none).get?
      "holding_fee_percent").getD (.pyInt 25)) = some 25
  ∧ _d (((pyMerge [("wifi_device_limit", PyVal.pyStr "3.5")] Option.none).get?
      "parking_monthly_cost").getD (.pyInt 0)) = some 0
  ∧ _d (((pyMerge [("wifi_device_limit", PyVal.pyStr "3.5")] Option.none).get?
      "wifi_monthly_cost").getD (.pyInt 0)) = some 0
  ∧ _d (((pyMerge [("wifi_device_limit", PyVal.pyStr "3.5")] Option.none).get?
      "pet_rent_monthly").getD (.pyInt 0)) = some 0
  ∧ pyIntCast (((pyMerge [("wifi_device_limit", PyVal.pyStr "3.5")] Option.none).get?
      "wifi_device_limit").getD (.pyInt 0)) = Option.none := by
  refine ⟨by decide, by decide, by decide, by decide, by decide, by decide,
    by decide, by decide, by decide, by decide⟩

/-- C7 (amended): the context assembly never fails once every decimal
coercion AND the integer coercion of `wifi_device_limit` succeed; the
assembled context contains the pass-through money-formatted fields and the
integer `wifi_device_limit`. -/
theorem C7_assembly_total (unit : Dict) (ov : Option Dict)
    (br sd af cf hp pk wc : ℚ) (wl : ℤ) (pr : ℚ)
    (hbr : _d (((pyMerge unit ov).get? "base_rent").getD (.pyInt 0)) = some br)
    (hsd : _d (((pyMerge unit ov).get? "security_deposit").getD (.pyInt 0)) = some sd)
    (haf : _d (((pyMerge unit ov).get? "application_fee").getD (.pyInt 0)) = some af)
    (hcf : _d (((pyMerge unit ov).get? "cleaning_fee").getD (.pyInt 0)) = some cf)
    (hhp : _d (((pyMerge unit ov).get? "holding_fee_percent").getD (.pyInt 25)) = some hp)
    (hpk : _d (((pyMerge unit ov).get? "parking_monthly_cost").getD (.pyInt 0)) = some pk)
    (hwc : _d (((pyMerge unit ov).get? "wifi_monthly_cost").getD (.pyInt 0)) = some wc)
    (hwl : pyIntCast (((pyMerge unit ov).get? "wifi_device_limit").getD (.pyInt 0)) = some wl)
    (hpr : _d (((pyMerge unit ov).get? "pet_rent_monthly").getD (.pyInt 0)) = some pr) :
    ∃ ctx, compute_unit_totals unit ov = some ctx
      ∧ ctx.get? "wifi_device_limit" = some (PyVal.pyInt wl)
      ∧ ctx.get? "parking_monthly_cost_fmt" = some (PyVal.pyStr (_money pk))
      ∧ ctx.get? "wifi_monthly_cost_fmt" = some (PyVal.pyStr (_money wc))
      ∧ ctx.get? "pet_rent_monthly_fmt" = some (PyVal.pyStr (_money pr)) := by
  refine ⟨_, compute_unit_totals_eq unit ov br sd af cf hp pk wc wl pr
    hbr hsd haf hcf hhp hpk hwc hwl hpr, ?_, ?_, ?_, ?_⟩
  · simp [buildCtx, Dict.get?_set]
  · simp [buildCtx, Dict.get?_set]
  · simp [buildCtx, Dict.get?_set]
  · simp [buildCtx, Dict.get?_set]

/-- Witness for the amended C7 at a unit with an integral
`wifi_device_limit` string and a parking cost. -/
theorem C7_assembly_total_witness :
    pyIntCast (((pyMerge [("wifi_device_limit", PyVal.pyStr "4"),
        ("parking_monthly_cost", PyVal.pyStr "75")] Option.none).get?
        "wifi_device_limit").getD (.pyInt 0)) = some 4
  ∧ (∃ ctx, compute_unit_totals [("wifi_device_limit", PyVal.pyStr "4"),
        ("parking_monthly_cost", PyVal.pyStr "75")] Option.none = some ctx
      ∧ ctx.get? "wifi_device_limit" = some (PyVal.pyInt 4)
      ∧ ctx.get? "parking_monthly_cost_fmt" = some (PyVal.pyStr (_money (75 : ℚ)))
      ∧ ctx.get? "wifi_monthly_cost_fmt" = some (PyVal.pyStr (_money (0 : ℚ)))
      ∧ ctx.get? "pet_rent_monthly_fmt" = some (PyVal.pyStr (_money (0 : ℚ))))
  ∧ _money (75 : ℚ) = "$75" := by
  refine ⟨by decide, ?_, by decide⟩
  exact C7_assembly_total
    [("wifi_device_limit", PyVal.pyStr "4"), ("parking_monthly_cost", PyVal.pyStr "75")]
    Option.none 0 0 0 0 25 75 0 4 0
    (by decide) (by decide) (by decide) (by decide) (by decide)
    (by decide) (by decide) (by decide) (by decide)

/-- C8: `holding_pct_fmt` is the integer part of `holding_fee_percent`
followed by `%`, with any fractional part truncated toward zero
(`truncQ`, Python `int(Decimal)`), not rounded. -/
theorem C8_holding_pct_fmt (unit : Dict) (ov : Option Dict)
    (br sd af cf hp pk wc : ℚ) (wl : ℤ) (pr : ℚ)
    (hbr : _d (((pyMerge unit ov).get? "base_rent").getD (.pyInt 0)) = some br)
    (hsd : _d (((pyMerge unit ov).get? "security_deposit").getD (.pyInt 0)) = some sd)
    (haf : _d (((pyMerge unit ov).get? "application_fee").getD (.pyInt 0)) = some af)
    (hcf : _d (((pyMerge unit ov).get? "cleaning_fee").getD (.pyInt 0)) = some cf)
    (hhp : _d (((pyMerge unit ov).get? "holding_fee_percent").getD (.pyInt 25)) = some hp)
    (hpk : _d (((pyMerge unit ov).get? "parking_monthly_cost").getD (.pyInt 0)) = some pk)
    (hwc : _d (((pyMerge unit ov).get? "wifi_monthly_cost").getD (.pyInt 0)) = some wc)
    (hwl : pyIntCast (((pyMerge unit ov).get? "wifi_device_limit").getD (.pyInt 0)) = some wl)
    (hpr : _d (((pyMerge unit ov).get? "pet_rent_monthly").getD (.pyInt 0)) = some pr) :
    ∃ ctx, compute_unit_totals unit ov = some ctx
      ∧ ctx.get? "holding_pct_fmt" =
          some (PyVal.pyStr (intRepr (truncQ hp) ++ "%")) := by
  refine ⟨_, compute_unit_totals_eq unit ov br sd af cf hp pk wc wl pr
    hbr hsd haf hcf hhp hpk hwc hwl hpr, ?_⟩
  simp [buildCtx, Dict.get?_set]

/-- Witness for C8 at `holding_fee_percent = 25.9`, which displays as
`"25%"` (truncated toward zero, not rounded to 26). -/
theorem C8_holding_pct_fmt_witness :
    _d (((pyMerge [("holding_fee_percent", PyVal.pyStr "25.9")] Option.none).get?
        "holding_fee_percent").getD (.pyInt 25)) = some ((259 : ℚ) / 10)
  ∧ (∃ ctx, compute_unit_totals [("holding_fee_percent", PyVal.pyStr "25.9")]
        Option.none = some ctx
      ∧ ctx.get? "holding_pct_fmt" =
          some (PyVal.pyStr (intRepr (truncQ ((259 : ℚ) / 10)) ++ "%")))
  ∧ intRepr (truncQ ((259 : ℚ) / 10)) ++ "%" = "25%"
  ∧ truncQ ((259 : ℚ) / 10) = 25
  ∧ truncQ ((-259 : ℚ) / 10) = -25 := by
  refine ⟨by decide, ?_, by decide, by decide, by decide⟩
  exact C8_holding_pct_fmt [("holding_fee_percent", PyVal.pyStr "25.9")]
    Option.none 0 0 0 0 ((259 : ℚ) / 10) 0 0 0 0
    (by decide) (by decide) (by decide) (by decide) (by decide)
    (by decide) (by decide) (by decide) (by decide)

/-- C9: the raw derived numeric context entries are binary64 floats
obtained by converting the exact internal Decimal results with `float()`:
each equals the correctly-rounded nearest double (`doubleRound`) of the
exact decimal value computed internally. -/
theorem C9_raw_entries_are_doubles (unit : Dict) (ov : Option Dict)
    (br sd af cf hp pk wc : ℚ) (wl : ℤ) (pr : ℚ)
    (hbr : _d (((pyMerge unit ov).get? "base_rent").getD (.pyInt 0)) = some br)
    (hsd : _d (((pyMerge unit ov).get? "security_deposit").getD (.pyInt 0)) = some sd)
    (haf : _d (((pyMerge unit ov).get? "application_fee").getD (.pyInt 0)) = some af)
    (hcf : _d (((pyMerge unit ov).get? "cleaning_fee").getD (.pyInt 0)) = some cf)
    (hhp : _d (((pyMerge unit ov).get? "holding_fee_percent").getD (.pyInt 25)) = some hp)
    (hpk : _d (((pyMerge unit ov).get? "parking_monthly_cost").getD (.pyInt 0)) = some pk)
    (hwc : _d (((pyMerge unit ov).get? "wifi_monthly_cost").getD (.pyInt 0)) = some wc)
    (hwl : pyIntCast (((pyMerge unit ov).get? "wifi_device_limit").getD (.pyInt 0)) = some wl)
    (hpr : _d (((pyMerge unit ov).get? "pet_rent_monthly").getD (.pyInt 0)) = some pr) :
    ∃ ctx, compute_unit_totals unit ov = some ctx
      ∧ ctx.get? "first_month_rent" = some (PyVal.pyFloat (doubleRound br))
      ∧ ctx.get? "last_month_rent" = some (PyVal.pyFloat (doubleRound br))
      ∧ ctx.get? "holding_fee" =
          some (PyVal.pyFloat (doubleRound (quantize2 (br * hp / 100))))
      ∧ ctx.get? "total_move_in" =
          some (PyVal.pyFloat (doubleRound (br + br + sd + af + cf)))
      ∧ ctx.get? "remaining_after_hold" =
          some (PyVal.pyFloat (doubleRound
            (br + br + sd + af + cf - quantize2 (br * hp / 100))))
      ∧ ctx.get? "total_monthly" = some (PyVal.pyFloat (doubleRound br)) := by
  refine ⟨_, compute_unit_totals_eq unit ov br sd af cf hp pk wc wl pr
    hbr hsd haf hcf hhp hpk hwc hwl hpr, ?_, ?_, ?_, ?_, ?_, ?_⟩
  · simp [buildCtx, Dict.get?_set]
  · simp [buildCtx, Dict.get?_set]
  · simp [buildCtx, Dict.get?_set]
  · simp [buildCtx, Dict.get?_set]
  · simp [buildCtx, Dict.get?_set]
  · simp [buildCtx, Dict.get?_set]

/-- C3 counterexample: at `base_rent = "0.01"` with an integer security
deposit of 1 (application and cleaning fees absent, defaulting to 0), the
raw numeric entries of the returned context violate the claimed exact
identity: the stored `total_move_in` differs from the sum of the stored
`first_month_rent`, `last_month_rent` and `security_deposit`. -/
theorem C3_move_in_identities_cex :
    ctxGet [("base_rent", PyVal.pyStr "0.01"), ("security_deposit", PyVal.pyInt 1)]
        Option.none "first_month_rent" =
      some (PyVal.pyFloat ((5764607523034235 : ℚ) / 2 ^ 59))
  ∧ ctxGet [("base_rent", PyVal.pyStr "0.01"), ("security_deposit", PyVal.pyInt 1)]
        Option.none "last_month_rent" =
      some (PyVal.pyFloat ((5764607523034235 : ℚ) / 2 ^ 59))
  ∧ ctxGet [("base_rent", PyVal.pyStr "0.01"), ("security_deposit", PyVal.pyInt 1)]
        Option.none "security_deposit" = some (PyVal.pyInt 1)
  ∧ ctxGet [("base_rent", PyVal.pyStr "0.01"), ("security_deposit", PyVal.pyInt 1)]
        Option.none "application_fee" = Option.none
  ∧ ctxGet [("base_rent", PyVal.pyStr "0.01"), ("security_deposit", PyVal.pyInt 1)]
        Option.none "cleaning_fee" = Option.none
  ∧ ctxGet [("base_rent", PyVal.pyStr "0.01"), ("security_deposit", PyVal.pyInt 1)]
        Option.none "total_move_in" =
      some (PyVal.pyFloat ((4593671619917906 : ℚ) / 2 ^ 52))
  ∧ (4593671619917906 : ℚ) / 2 ^ 52 ≠
      (5764607523034235 : ℚ) / 2 ^ 59 + (5764607523034235 : ℚ) / 2 ^ 59 + 1 := by
  refine ⟨by decide, by decide, by decide, by decide, by decide, by decide, by decide⟩

/-- C3 (amended): the identities `total_move_in = first_month_rent +
last_month_rent + security_deposit + application_fee + cleaning_fee` and
`remaining_after_hold = total_move_in − holding_fee`, with
`first_month_rent = last_month_rent = base_rent`, hold exactly for the
internal Decimal values (and are what the formatted entries render); the
raw numeric context entries are per-entry nearest-double conversions of
those exact decimals, so the identities are not guaranteed among the
stored floats. -/
theorem C3_move_in_identities (unit : Dict) (ov : Option Dict)
    (br sd af cf hp pk wc : ℚ) (wl : ℤ) (pr : ℚ)
    (hbr : _d (((pyMerge unit ov).get? "base_rent").getD (.pyInt 0)) = some br)
    (hsd : _d (((pyMerge unit ov).get? "security_deposit").getD (.pyInt 0)) = some sd)
    (haf : _d (((pyMerge unit ov).get? "application_fee").getD (.pyInt 0)) = some af)
    (hcf : _d (((pyMerge unit ov).get? "cleaning_fee").getD (.pyInt 0)) = some cf)
    (hhp : _d (((pyMerge unit ov).get? "holding_fee_percent").getD (.pyInt 25)) = some hp)
    (hpk : _d (((pyMerge unit ov).get? "parking_monthly_cost").getD (.pyInt 0)) = some pk)
    (hwc : _d (((pyMerge unit ov).get? "wifi_monthly_cost").getD (.pyInt 0)) = some wc)
    (hwl : pyIntCast (((pyMerge unit ov).get? "wifi_device_limit").getD (.pyInt 0)) = some wl)
    (hpr : _d (((pyMerge unit ov).get? "pet_rent_monthly").getD (.pyInt 0)) = some pr) :
    ∃ ctx fm lm hf tmi rem, compute_unit_totals unit ov = some ctx
      ∧ fm = br ∧ lm = br
      ∧ hf = quantize2 (br * hp / 100)
      ∧ tmi = fm + lm + sd + af + cf
      ∧ rem = tmi - hf
      ∧ ctx.get? "first_month_rent" = some (PyVal.pyFloat (doubleRound fm))
      ∧ ctx.get? "last_month_rent" = some (PyVal.pyFloat (doubleRound lm))
      ∧ ctx.get? "total_move_in" = some (PyVal.pyFloat (doubleRound tmi))
      ∧ ctx.get? "remaining_after_hold" = some (PyVal.pyFloat (doubleRound rem))
      ∧ ctx.get? "total_move_in_fmt" = some (PyVal.pyStr (_money tmi))
      ∧ ctx.get? "remaining_fmt" = some (PyVal.pyStr (_money rem)) := by
  refine ⟨_, br, br, quantize2 (br * hp / 100), br + br + sd + af + cf,
    br + br + sd + af + cf - quantize2 (br * hp / 100),
    compute_unit_totals_eq unit ov br sd af cf hp pk wc wl pr
      hbr hsd haf hcf hhp hpk hwc hwl hpr,
    rfl, rfl, rfl, rfl, rfl, ?_, ?_, ?_, ?_, ?_, ?_⟩
  · simp [buildCtx, Dict.get?_set]
  · simp [buildCtx, Dict.get?_set]
  · simp [buildCtx, Dict.get?_set]
  · simp [buildCtx, Dict.get?_set]
  · simp [buildCtx, Dict.get?_set]
  · simp [buildCtx, Dict.get?_set]

/-- Witness for the amended C3 at the spec's end-to-end example
(`1500/1500/50/100/25`): the exact totals are 4650 and 4275, rendered
`"$4,650"` and `"$4,275"`. -/
theorem C3_move_in_identities_witness :
    _d (((pyMerge [("base_rent", PyVal.pyInt 1500),
        ("security_deposit", PyVal.pyInt 1500), ("application_fee", PyVal.pyInt 50),
        ("cleaning_fee", PyVal.pyInt 100), ("holding_fee_percent", PyVal.pyInt 25)]
        Option.none).get? "base_rent").getD (.pyInt 0)) = some (1500 : ℚ)
  ∧ (∃ ctx fm lm hf tmi rem,
      compute_unit_totals [("base_rent", PyVal.pyInt 1500),
        ("security_deposit", PyVal.pyInt 1500), ("application_fee", PyVal.pyInt 50),
        ("cleaning_fee", PyVal.pyInt 100), ("holding_fee_percent", PyVal.pyInt 25)]
        Option.none = some ctx
      ∧ fm = (1500 : ℚ) ∧ lm = (1500 : ℚ)
      ∧ hf = quantize2 ((1500 : ℚ) * 25 / 100)
      ∧ tmi = fm + lm + (1500 : ℚ) + 50 + 100
      ∧ rem = tmi - hf
      ∧ ctx.get? "first_month_rent" = some (PyVal.pyFloat (doubleRound fm))
      ∧ ctx.get? "last_month_rent" = some (PyVal.pyFloat (doubleRound lm))
      ∧ ctx.get? "total_move_in" = some (PyVal.pyFloat (doubleRound tmi))
      ∧ ctx.get? "remaining_after_hold" = some (PyVal.pyFloat (doubleRound rem))
      ∧ ctx.get? "total_move_in_fmt" = some (PyVal.pyStr (_money tmi))
      ∧ ctx.get? "remaining_fmt" = some (PyVal.pyStr (_money rem)))
  ∧ (1500 : ℚ) + 1500 + 1500 + 50 + 100 = 4650
  ∧ quantize2 ((1500 : ℚ) * 25 / 100) = 375
  ∧ _money ((1500 : ℚ) + 1500 + 1500 + 50 + 100) = "$4,650"
  ∧ _money ((1500 : ℚ) + 1500 + 1500 + 50 + 100 - quantize2 ((1500 : ℚ) * 25 / 100))
      = "$4,275" := by
  refine ⟨by decide, ?_, by decide, by decide, by decide, by decide⟩
  exact C3_move_in_identities [("base_rent", PyVal.pyInt 1500),
    ("security_deposit", PyVal.pyInt 1500), ("application_fee", PyVal.pyInt 50),
    ("cleaning_fee", PyVal.pyInt 100), ("holding_fee_percent", PyVal.pyInt 25)]
    Option.none 1500 1500 50 100 25 0 0 0 0
    (by decide) (by decide) (by decide) (by decide) (by decide)
    (by decide) (by decide) (by decide) (by decide)

/-- C6 counterexample: at `utilities_included = " yes"` (with surrounding
whitespace) and no `utilities_text`, the code labels utilities
`"Included in Rent"` although `" yes"` is not case-insensitively equal to
`"yes"`, `"true"` or `"1"`; the claim as stated would give the fallback
`"Not Included"`.  The code additionally strips whitespace before
comparing. -/
theorem C6_utilities_label_cex :
    ctxGet [("utilities_included", PyVal.pyStr " yes")] Option.none "utilities_label"
      = some (PyVal.pyStr "Included in Rent")
  ∧ Dict.get? [("utilities_included", PyVal.pyStr " yes")] "utilities_text"
      = Option.none
  ∧ pyLower " yes" ≠ "yes" ∧ pyLower " yes" ≠ "true" ∧ pyLower " yes" ≠ "1" := by
  refine ⟨by decide, by decide, by decide, by decide, by decide⟩

/-- C6 (amended): `utilities_label` is the fixed string
`"Included in Rent"` when `utilities_included` is boolean-true, or a
string that — after stripping surrounding whitespace and lowercasing —
equals `"yes"`, `"true"` or `"1"`; otherwise it is the value of
`utilities_text` when present and the fixed fallback `"Not Included"`
when absent. -/
theorem C6_utilities_label_amended (unit : Dict) (ov : Option Dict)
    (br sd af cf hp pk wc : ℚ) (wl : ℤ) (pr : ℚ)
    (hbr : _d (((pyMerge unit ov).get? "base_rent").getD (.pyInt 0)) = some br)
    (hsd : _d (((pyMerge unit ov).get? "security_deposit").getD (.pyInt 0)) = some sd)
    (haf : _d (((pyMerge unit ov).get? "application_fee").getD (.pyInt 0)) = some af)
    (hcf : _d (((pyMerge unit ov).get? "cleaning_fee").getD (.pyInt 0)) = some cf)
    (hhp : _d (((pyMerge unit ov).get? "holding_fee_percent").getD (.pyInt 25)) = some hp)
    (hpk : _d (((pyMerge unit ov).get? "parking_monthly_cost").getD (.pyInt 0)) = some pk)
    (hwc : _d (((pyMerge unit ov).get? "wifi_monthly_cost").getD (.pyInt 0)) = some wc)
    (hwl : pyIntCast (((pyMerge unit ov).get? "wifi_device_limit").getD (.pyInt 0)) = some wl)
    (hpr : _d (((pyMerge unit ov).get? "pet_rent_monthly").getD (.pyInt 0)) = some pr) :
    (∃ ctx, compute_unit_totals unit ov = some ctx
      ∧ ctx.get? "utilities_label" = some (utilitiesLabel (pyMerge unit ov)))
  ∧ (∀ s, (pyMerge unit ov).get? "utilities_included" = some (PyVal.pyStr s) →
      (pyLower (pyStrip s) = "yes" ∨ pyLower (pyStrip s) = "true" ∨
        pyLower (pyStrip s) = "1") →
      utilitiesLabel (pyMerge unit ov) = PyVal.pyStr "Included in Rent")
  ∧ ((pyMerge unit ov).get? "utilities_included" = some (PyVal.pyBool true) →
      utilitiesLabel (pyMerge unit ov) = PyVal.pyStr "Included in Rent")
  ∧ (∀ s, (pyMerge unit ov).get? "utilities_included" = some (PyVal.pyStr s) →
      ¬(pyLower (pyStrip s) = "yes" ∨ pyLower (pyStrip s) = "true" ∨
        pyLower (pyStrip s) = "1") →
      utilitiesLabel (pyMerge unit ov) =
        ((pyMerge unit ov).get? "utilities_text").getD (PyVal.pyStr "Not Included"))
  ∧ (((pyMerge unit ov).get? "utilities_included" = Option.none ∨
      (pyMerge unit ov).get? "utilities_included" = some (PyVal.pyBool false)) →
      utilitiesLabel (pyMerge unit ov) =
        ((pyMerge unit ov).get? "utilities_text").getD (PyVal.pyStr "Not Included")) := by
  refine ⟨?_, ?_, ?_, ?_, ?_⟩
  · refine ⟨_, compute_unit_totals_eq unit ov br sd af cf hp pk wc wl pr
      hbr hsd haf hcf hhp hpk hwc hwl hpr, ?_⟩
    simp [buildCtx, Dict.get?_set]
  · intro s hs hmem
    rcases hmem with h | h | h
    · simp [utilitiesLabel, utilsIncludedFlag, hs, h]
    · simp [utilitiesLabel, utilsIncludedFlag, hs, h]
    · simp [utilitiesLabel, utilsIncludedFlag, hs, h]
  · intro hb
    simp [utilitiesLabel, utilsIncludedFlag, hb, truthy]
  · intro s hs hnot
    have h1 : pyLower (pyStrip s) ≠ "yes" := fun h => hnot (Or.inl h)
    have h2 : pyLower (pyStrip s) ≠ "true" := fun h => hnot (Or.inr (Or.inl h))
    have h3 : pyLower (pyStrip s) ≠ "1" := fun h => hnot (Or.inr (Or.inr h))
    simp [utilitiesLabel, utilsIncludedFlag, hs, h1, h2, h3]
  · intro habs
    rcases habs with h | h
    · simp [utilitiesLabel, utilsIncludedFlag, h, truthy]
    · simp [utilitiesLabel, utilsIncludedFlag, h, truthy]

/-- Witness for the amended C6 at `utilities_included = true` (native
boolean), plus evaluations of the other label cases from the spec's
examples. -/
theorem C6_utilities_label_amended_witness :
    (∃ ctx, compute_unit_totals [("utilities_included", PyVal.pyBool true)]
        Option.none = some ctx
      ∧ ctx.get? "utilities_label" =
          some (utilitiesLabel (pyMerge [("utilities_included", PyVal.pyBool true)]
            Option.none)))
  ∧ utilitiesLabel (pyMerge [("utilities_included", PyVal.pyBool true)] Option.none)
      = PyVal.pyStr "Included in Rent"
  ∧ utilitiesLabel [("utilities_included", PyVal.pyStr "Yes")]
      = PyVal.pyStr "Included in Rent"
  ∧ utilitiesLabel [("utilities_included", PyVal.pyBool false),
      ("utilities_text", PyVal.pyStr "Tenant pays electric")]
      = PyVal.pyStr "Tenant pays electric"
  ∧ utilitiesLabel [] = PyVal.pyStr "Not Included" := by
  have h := C6_utilities_label_amended [("utilities_included", PyVal.pyBool true)]
    Option.none 0 0 0 0 25 0 0 0 0
    (by decide) (by decide) (by decide) (by decide) (by decide)
    (by decide) (by decide) (by decide) (by decide)
  exact ⟨h.1, h.2.2.1 (by decide), by decide, by decide, by decide⟩

/-- Witness for C9 at `base_rent = "0.1"`: the stored entry is the nearest
double `3602879701896397/2^55`, which is NOT the exact decimal `1/10` —
the entries are floats, not exact decimals. -/
theorem C9_raw_entries_are_doubles_witness :
    _d (((pyMerge [("base_rent", PyVal.pyStr "0.1")] Option.none).get?
        "base_rent").getD (.pyInt 0)) = some ((1 : ℚ) / 10)
  ∧ (∃ ctx, compute_unit_totals [("base_rent", PyVal.pyStr "0.1")] Option.none
        = some ctx
      ∧ ctx.get? "first_month_rent" = some (PyVal.pyFloat (doubleRound ((1 : ℚ) / 10)))
      ∧ ctx.get? "last_month_rent" = some (PyVal.pyFloat (doubleRound ((1 : ℚ) / 10)))
      ∧ ctx.get? "holding_fee" = some (PyVal.pyFloat (doubleRound
          (quantize2 ((1 : ℚ) / 10 * 25 / 100))))
      ∧ ctx.get? "total_move_in" = some (PyVal.pyFloat (doubleRound
          ((1 : ℚ) / 10 + (1 : ℚ) / 10 + 0 + 0 + 0)))
      ∧ ctx.get? "remaining_after_hold" = some (PyVal.pyFloat (doubleRound
          ((1 : ℚ) / 10 + (1 : ℚ) / 10 + 0 + 0 + 0 - quantize2 ((1 : ℚ) / 10 * 25 / 100))))
      ∧ ctx.get? "total_monthly" = some (PyVal.pyFloat (doubleRound ((1 : ℚ) / 10))))
  ∧ doubleRound ((1 : ℚ) / 10) = (3602879701896397 : ℚ) / 2 ^ 55
  ∧ doubleRound ((1 : ℚ) / 10) ≠ (1 : ℚ) / 10 := by
  refine ⟨by decide, ?_, by decide, by decide⟩
  exact C9_raw_entries_are_doubles [("base_rent", PyVal.pyStr "0.1")]
    Option.none ((1 : ℚ) / 10) 0 0 0 25 0 0 0 0
    (by decide) (by decide) (by decide) (by decide) (by decide)
    (by decide) (by decide) (by decide) (by decide)
